import Mathlib

/-!
Shallow embedding of the d20-chat-webapp realtime core (src/app.py).

The embedding models:
* the identity-token extraction shared by `send_message` (lines 109-118)
  and the `websocket` handler (lines 156-169): `parse_qs` over the raw
  token, `json.loads` of the `user` field, then `dict.get('id')`;
* the connection registry `active_connections` (line 32), a Python dict
  from user id to websocket handle, with dict assignment (line 171),
  guarded `del` (lines 197-199) and `dict.pop(uid, None)` (line 229);
* the broadcast fanout `broadcast_message` (lines 215-229);
* the HTTP handlers `send_message` (lines 106-142) and `get_messages`
  (lines 89-104) and the registration phase of `websocket` (lines 151-192).

Python values decoded from JSON are modelled by `JVal`.  Machine-level
simplifications, each noted at its definition: JSON floats are not
modelled (the parser rejects them), `ensure_ascii` escaping of non-ASCII
characters in `json.dumps` is not performed, percent-decoding treats each
`%XX` byte as a Unicode scalar, and Python's underscore digit grouping in
`int()` is not accepted.  External collaborators (the Yandex Cloud store
behind `api_request`) are oracle parameters of the handlers.
-/

/-- Python value decoded from JSON: the possible results of `json.loads`.
JSON numbers are modelled as integers only; a float literal is treated as
a parse failure (no claim exercises floats). -/
inductive JVal where
  | jnull
  | jbool (b : Bool)
  | jnum (n : Int)
  | jstr (s : String)
  | jarr (xs : List JVal)
  | jobj (fs : List (String × JVal))

mutual

/-- Structural equality on `JVal`, mirroring Python `==` on decoded JSON
values (restricted to the constructors we model). -/
def JVal.beq : JVal → JVal → Bool
  | .jnull, .jnull => true
  | .jbool a, .jbool b => a == b
  | .jnum a, .jnum b => a == b
  | .jstr a, .jstr b => a == b
  | .jarr xs, .jarr ys => JVal.beqList xs ys
  | .jobj xs, .jobj ys => JVal.beqObj xs ys
  | _, _ => false

/-- Pointwise `JVal.beq` on arrays. -/
def JVal.beqList : List JVal → List JVal → Bool
  | [], [] => true
  | x :: xs, y :: ys => JVal.beq x y && JVal.beqList xs ys
  | _, _ => false

/-- Pointwise `JVal.beq` on object member lists. -/
def JVal.beqObj : List (String × JVal) → List (String × JVal) → Bool
  | [], [] => true
  | (k, v) :: xs, (l, w) :: ys => k == l && JVal.beq v w && JVal.beqObj xs ys
  | _, _ => false

end

mutual

theorem JVal.beq_refl : (a : JVal) → JVal.beq a a = true
  | .jnull => rfl
  | .jbool b => by simp [JVal.beq]
  | .jnum n => by simp [JVal.beq]
  | .jstr s => by simp [JVal.beq]
  | .jarr xs => JVal.beqList_refl xs
  | .jobj fs => JVal.beqObj_refl fs

theorem JVal.beqList_refl : (xs : List JVal) → JVal.beqList xs xs = true
  | [] => rfl
  | x :: xs => by
      have h1 := JVal.beq_refl x
      have h2 := JVal.beqList_refl xs
      simp [JVal.beqList, h1, h2]

theorem JVal.beqObj_refl : (fs : List (String × JVal)) → JVal.beqObj fs fs = true
  | [] => rfl
  | (k, v) :: fs => by
      have h1 := JVal.beq_refl v
      have h2 := JVal.beqObj_refl fs
      simp [JVal.beqObj, h1, h2]

end

mutual

theorem JVal.eq_of_beq : (a b : JVal) → JVal.beq a b = true → a = b
  | .jnull, .jnull, _ => rfl
  | .jbool a, .jbool b, h => by
      have : a = b := by simpa [JVal.beq] using h
      rw [this]
  | .jnum a, .jnum b, h => by
      have : a = b := by simpa [JVal.beq] using h
      rw [this]
  | .jstr a, .jstr b, h => by
      have : a = b := by simpa [JVal.beq] using h
      rw [this]
  | .jarr xs, .jarr ys, h => by
      rw [JVal.eqList_of_beq xs ys h]
  | .jobj xs, .jobj ys, h => by
      rw [JVal.eqObj_of_beq xs ys h]
  | .jnull, .jbool _, h | .jnull, .jnum _, h | .jnull, .jstr _, h
  | .jnull, .jarr _, h | .jnull, .jobj _, h
  | .jbool _, .jnull, h | .jbool _, .jnum _, h | .jbool _, .jstr _, h
  | .jbool _, .jarr _, h | .jbool _, .jobj _, h
  | .jnum _, .jnull, h | .jnum _, .jbool _, h | .jnum _, .jstr _, h
  | .jnum _, .jarr _, h | .jnum _, .jobj _, h
  | .jstr _, .jnull, h | .jstr _, .jbool _, h | .jstr _, .jnum _, h
  | .jstr _, .jarr _, h | .jstr _, .jobj _, h
  | .jarr _, .jnull, h | .jarr _, .jbool _, h | .jarr _, .jnum _, h
  | .jarr _, .jstr _, h | .jarr _, .jobj _, h
  | .jobj _, .jnull, h | .jobj _, .jbool _, h | .jobj _, .jnum _, h
  | .jobj _, .jstr _, h | .jobj _, .jarr _, h => nomatch h

theorem JVal.eqList_of_beq : (xs ys : List JVal) → JVal.beqList xs ys = true → xs = ys
  | [], [], _ => rfl
  | x :: xs, y :: ys, h => by
      have h1 : JVal.beq x y = true := by
        have := h
        simp [JVal.beqList] at this
        exact this.1
      have h2 : JVal.beqList xs ys = true := by
        have := h
        simp [JVal.beqList] at this
        exact this.2
      rw [JVal.eq_of_beq x y h1, JVal.eqList_of_beq xs ys h2]
  | [], _ :: _, h => nomatch h
  | _ :: _, [], h => nomatch h

theorem JVal.eqObj_of_beq :
    (xs ys : List (String × JVal)) → JVal.beqObj xs ys = true → xs = ys
  | [], [], _ => rfl
  | (k, v) :: xs, (l, w) :: ys, h => by
      have h0 : k = l := by
        have := h
        simp [JVal.beqObj] at this
        exact this.1.1
      have h1 : JVal.beq v w = true := by
        have := h
        simp [JVal.beqObj] at this
        exact this.1.2
      have h2 : JVal.beqObj xs ys = true := by
        have := h
        simp [JVal.beqObj] at this
        exact this.2
      rw [h0, JVal.eq_of_beq v w h1, JVal.eqObj_of_beq xs ys h2]
  | [], _ :: _, h => nomatch h
  | _ :: _, [], h => nomatch h

end

instance : BEq JVal := ⟨JVal.beq⟩

instance : LawfulBEq JVal where
  eq_of_beq h := JVal.eq_of_beq _ _ h
  rfl := JVal.beq_refl _

instance : DecidableEq JVal := fun a b =>
  decidable_of_iff (JVal.beq a b = true)
    ⟨JVal.eq_of_beq a b, fun h => h ▸ JVal.beq_refl a⟩

/-- Python truthiness (`bool(v)`) of a decoded JSON value: `None`, `False`,
`0`, `""`, `[]` and `{}` are falsy, everything else truthy.  Used by the
`if not user_id:` check (app.py line 167), `if profile:` (line 177), the
`if exclude_user` guard (line 220) and `if result:` (line 101). -/
def JVal.truthy : JVal → Bool
  | .jnull => false
  | .jbool b => b
  | .jnum n => n != 0
  | .jstr s => s.length != 0
  | .jarr xs => !xs.isEmpty
  | .jobj fs => !fs.isEmpty

example : JVal.truthy (.jnum 0) = false := by decide
example : JVal.truthy (.jstr "x") = true := by decide

/-! ### URL-encoded form decoding: model of `urllib.parse.parse_qs` -/

/-- Python `str` whitespace for `str.strip()` and `int()` (ASCII subset;
Unicode whitespace beyond these is not modelled). -/
def pyIsSpace (c : Char) : Bool :=
  c = ' ' || c = '\t' || c = '\n' || c = '\r' || c = '\x0b' || c = '\x0c'

/-- Python `str.strip()` on a character list: drop whitespace from both ends. -/
def pyStripChars (cs : List Char) : List Char :=
  ((cs.dropWhile pyIsSpace).reverse.dropWhile pyIsSpace).reverse

/-- Python `str.strip()` (app.py line 120). -/
def pyStrip (s : String) : String :=
  String.mk (pyStripChars s.toList)

/-- Split a character list on every occurrence of `sep`, keeping empty
groups, as Python `str.split(sep)` does. -/
def splitChar (sep : Char) : List Char → List (List Char)
  | [] => [[]]
  | c :: cs =>
    if c = sep then [] :: splitChar sep cs
    else
      match splitChar sep cs with
      | [] => [[c]]
      | g :: gs => (c :: g) :: gs

/-- Split at the first occurrence of `sep` (`str.split(sep, 1)` when it
finds a separator); `none` when `sep` does not occur. -/
def splitFirst (sep : Char) : List Char → Option (List Char × List Char)
  | [] => none
  | c :: cs =>
    if c = sep then some ([], cs)
    else (splitFirst sep cs).map (fun p => (c :: p.1, p.2))

/-- Hexadecimal digit value. -/
def hexVal (c : Char) : Option Nat :=
  if '0' ≤ c ∧ c ≤ '9' then some (c.toNat - 48)
  else if 'a' ≤ c ∧ c ≤ 'f' then some (c.toNat - 87)
  else if 'A' ≤ c ∧ c ≤ 'F' then some (c.toNat - 55)
  else none

/-- Model of `urllib.parse.unquote_plus`: `+` becomes a space and `%XX`
with two hex digits becomes the character of that byte value (each decoded
byte is treated as a Unicode scalar, which is faithful for ASCII; UTF-8
recombination of multi-byte sequences is not modelled).  An invalid `%`
sequence is left as-is, as in Python. -/
def unquote_plus : List Char → List Char
  | [] => []
  | '+' :: rest => ' ' :: unquote_plus rest
  | '%' :: a :: b :: rest =>
    match hexVal a, hexVal b with
    | some x, some y => Char.ofNat (16 * x + y) :: unquote_plus rest
    | _, _ => '%' :: unquote_plus (a :: b :: rest)
  | c :: rest => c :: unquote_plus rest

/-- Append a decoded (name, value) pair to the accumulated multi-dict, as
`parse_qs` does: grow the existing key's list, else append a new key. -/
def addQS (acc : List (String × List String)) (k : String) (v : String) :
    List (String × List String) :=
  if acc.any (fun p => p.1 == k) then
    acc.map (fun p => if p.1 == k then (p.1, p.2 ++ [v]) else p)
  else acc ++ [(k, [v])]

/-- Model of `urllib.parse.parse_qs(qs)` with default settings (used at
app.py lines 114 and 160): split on `&`; skip empty fields, fields without
`=` and fields with an empty value (`keep_blank_values=False`,
`strict_parsing=False`); `unquote_plus` names and values; aggregate values
per name in first-appearance order.  `parse_qs` never raises on a `str`
input. -/
def parse_qs (qs : String) : List (String × List String) :=
  (splitChar '&' qs.toList).foldl
    (fun acc field =>
      match field with
      | [] => acc
      | _ =>
        match splitFirst '=' field with
        | none => acc
        | some (name, value) =>
          if value.isEmpty then acc
          else addQS acc (String.mk (unquote_plus name)) (String.mk (unquote_plus value)))
    []

example : parse_qs "user=abc&x=1" = [("user", ["abc"]), ("x", ["1"])] := by decide
example : parse_qs "a=1&a=2" = [("a", ["1", "2"])] := by decide
example : parse_qs "noequals&b=" = [] := by decide
example : parse_qs "user=%7Bx%7D" = [("user", ["\x7bx\x7d"])] := by decide
example : parse_qs "" = [] := by decide

/-! ### JSON parsing: model of `json.loads` -/

/-- JSON whitespace accepted between tokens by `json.loads`. -/
def jsonIsWs (c : Char) : Bool :=
  c = ' ' || c = '\t' || c = '\n' || c = '\r'

/-- Skip JSON whitespace. -/
def skipWs (cs : List Char) : List Char :=
  cs.dropWhile jsonIsWs

/-- ASCII decimal digit test. -/
def isDigitChar (c : Char) : Bool :=
  '0' ≤ c && c ≤ '9'

/-- Numeric value of a digit list. -/
def digitsVal (cs : List Char) : Nat :=
  cs.foldl (fun a c => a * 10 + (c.toNat - 48)) 0

/-- Parse the body of a JSON string after the opening quote, returning the
content and the remainder.  Handles the standard escapes and `\uXXXX`
(mapped to the scalar of the code unit; surrogate pairing is not
modelled).  Raw control characters are accepted, a simplification of
strict-mode `json.loads`. -/
def parseStrChars : List Char → Option (List Char × List Char)
  | [] => none
  | '"' :: rest => some ([], rest)
  | '\\' :: 'u' :: a :: b :: c :: d :: rest =>
    match hexVal a, hexVal b, hexVal c, hexVal d with
    | some w, some x, some y, some z =>
      (parseStrChars rest).map
        (fun p => (Char.ofNat (((w * 16 + x) * 16 + y) * 16 + z) :: p.1, p.2))
    | _, _, _, _ => none
  | '\\' :: e :: rest =>
    match
      (if e = '"' then some '"'
       else if e = '\\' then some '\\'
       else if e = '/' then some '/'
       else if e = 'b' then some '\x08'
       else if e = 'f' then some '\x0c'
       else if e = 'n' then some '\n'
       else if e = 'r' then some '\r'
       else if e = 't' then some '\t'
       else none)
    with
    | some ch => (parseStrChars rest).map (fun p => (ch :: p.1, p.2))
    | none => none
  | c :: rest => (parseStrChars rest).map (fun p => (c :: p.1, p.2))

/-- Parse a JSON integer literal (optional `-`, then `0` or a nonzero
digit followed by digits).  A following `.`, `e` or `E` means a float
literal, which this model does not support: the parse fails where Python
would produce a float. -/
def parseNum : List Char → Option (Int × List Char)
  | cs =>
    let (neg, cs1) :=
      match cs with
      | '-' :: rest => (true, rest)
      | _ => (false, cs)
    let digits := cs1.takeWhile isDigitChar
    let rest := cs1.dropWhile isDigitChar
    if digits.isEmpty then none
    else if digits.length > 1 && digits.headD '0' = '0' then none
    else
      match rest with
      | '.' :: _ => none
      | 'e' :: _ => none
      | 'E' :: _ => none
      | _ =>
        let n : Int := Int.ofNat (digitsVal digits)
        some (if neg then -n else n, rest)

mutual

/-- Fuel-indexed recursive-descent JSON value parser modelling
`json.loads`; returns the value and the unconsumed remainder. -/
def parseJ : Nat → List Char → Option (JVal × List Char)
  | 0, _ => none
  | fuel + 1, cs =>
    match skipWs cs with
    | 'n' :: 'u' :: 'l' :: 'l' :: rest => some (.jnull, rest)
    | 't' :: 'r' :: 'u' :: 'e' :: rest => some (.jbool true, rest)
    | 'f' :: 'a' :: 'l' :: 's' :: 'e' :: rest => some (.jbool false, rest)
    | '"' :: rest =>
      (parseStrChars rest).map (fun p => (.jstr (String.mk p.1), p.2))
    | '[' :: rest =>
      (match skipWs rest with
       | ']' :: rest2 => some (.jarr [], rest2)
       | _ =>
         match parseJ fuel rest with
         | none => none
         | some (v, rest2) =>
           match parseArr fuel rest2 with
           | none => none
           | some (vs, rest3) => some (.jarr (v :: vs), rest3))
    | '\x7b' :: rest =>
      (match skipWs rest with
       | '\x7d' :: rest2 => some (.jobj [], rest2)
       | _ =>
         match parseMember fuel rest with
         | none => none
         | some (kv, rest2) =>
           match parseObj fuel rest2 with
           | none => none
           | some (kvs, rest3) => some (.jobj (kv :: kvs), rest3))
    | cs1 => (parseNum cs1).map (fun p => (.jnum p.1, p.2))

/-- Parse array continuations: `, value`* then `]`. -/
def parseArr : Nat → List Char → Option (List JVal × List Char)
  | 0, _ => none
  | fuel + 1, cs =>
    match skipWs cs with
    | ']' :: rest => some ([], rest)
    | ',' :: rest =>
      match parseJ fuel rest with
      | none => none
      | some (v, rest2) =>
        match parseArr fuel rest2 with
        | none => none
        | some (vs, rest3) => some (v :: vs, rest3)
    | _ => none

/-- Parse one `"key": value` object member. -/
def parseMember : Nat → List Char → Option ((String × JVal) × List Char)
  | 0, _ => none
  | fuel + 1, cs =>
    match skipWs cs with
    | '"' :: rest =>
      match parseStrChars rest with
      | none => none
      | some (kcs, rest2) =>
        match skipWs rest2 with
        | ':' :: rest3 =>
          match parseJ fuel rest3 with
          | none => none
          | some (v, rest4) => some ((String.mk kcs, v), rest4)
        | _ => none
    | _ => none

/-- Parse object continuations: `, member`* then `}`. -/
def parseObj : Nat → List Char → Option (List (String × JVal) × List Char)
  | 0, _ => none
  | fuel + 1, cs =>
    match skipWs cs with
    | '\x7d' :: rest => some ([], rest)
    | ',' :: rest =>
      match parseMember fuel rest with
      | none => none
      | some (kv, rest2) =>
        match parseObj fuel rest2 with
        | none => none
        | some (kvs, rest3) => some (kv :: kvs, rest3)
    | _ => none

end

/-- Model of `json.loads` (app.py lines 115 and 161): parse one JSON value
and require only whitespace to remain; `none` models the raised
`JSONDecodeError`. -/
def json_loads (s : String) : Option JVal :=
  match parseJ (s.toList.length + 2) s.toList with
  | some (v, rest) => if (skipWs rest).isEmpty then some v else none
  | none => none

example : json_loads "\x7b\"id\": 42\x7d" = some (.jobj [("id", .jnum 42)]) := by decide
example : json_loads "\x7b\x7d" = some (.jobj []) := by decide
example : json_loads "notjson" = none := by decide
example : json_loads "[1, \"a\", null]" = some (.jarr [.jnum 1, .jstr "a", .jnull]) := by decide
example : json_loads "\x7b\"id\": 0\x7d" = some (.jobj [("id", .jnum 0)]) := by decide
example : json_loads "5" = some (.jnum 5) := by decide
example : json_loads "\x7b\"a\": \x7b\"b\": [true]\x7d\x7d"
    = some (.jobj [("a", .jobj [("b", .jarr [.jbool true])])]) := by decide

/-! ### JSON serialization: model of `json.dumps` -/

/-- Decimal digits of a natural number (fuel-indexed; fuel `n + 1` always
suffices). -/
def natDigitsAux : Nat → Nat → List Char
  | 0, _ => []
  | _ + 1, 0 => []
  | fuel + 1, n => natDigitsAux fuel (n / 10) ++ [Char.ofNat (48 + n % 10)]

/-- Decimal rendering of an integer. -/
def intChars (n : Int) : List Char :=
  if n < 0 then '-' :: natDigitsAux (n.natAbs + 1) n.natAbs
  else if n = 0 then ['0']
  else natDigitsAux (n.natAbs + 1) n.natAbs

/-- Escaping of one character inside a serialized JSON string: quote,
backslash and the common control characters (`ensure_ascii` escaping of
other non-ASCII characters is not modelled). -/
def dumpEscape (c : Char) : List Char :=
  if c = '"' then ['\\', '"']
  else if c = '\\' then ['\\', '\\']
  else if c = '\n' then ['\\', 'n']
  else if c = '\r' then ['\\', 'r']
  else if c = '\t' then ['\\', 't']
  else [c]

/-- Serialized JSON string literal. -/
def dumpStrChars (s : String) : List Char :=
  '"' :: (s.toList.foldr (fun c acc => dumpEscape c ++ acc) ['"'])

mutual

/-- Model of `json.dumps` with default separators, as called at app.py
line 224; produces the character list of the serialized event. -/
def JVal.dumpChars : JVal → List Char
  | .jnull => ['n', 'u', 'l', 'l']
  | .jbool true => ['t', 'r', 'u', 'e']
  | .jbool false => ['f', 'a', 'l', 's', 'e']
  | .jnum n => intChars n
  | .jstr s => dumpStrChars s
  | .jarr xs => '[' :: (JVal.dumpListChars xs ++ [']'])
  | .jobj fs => '\x7b' :: (JVal.dumpObjChars fs ++ ['\x7d'])

/-- Comma-separated serialization of array elements. -/
def JVal.dumpListChars : List JVal → List Char
  | [] => []
  | [x] => JVal.dumpChars x
  | x :: y :: xs => JVal.dumpChars x ++ [',', ' '] ++ JVal.dumpListChars (y :: xs)

/-- Comma-separated serialization of object members. -/
def JVal.dumpObjChars : List (String × JVal) → List Char
  | [] => []
  | [(k, v)] => dumpStrChars k ++ [':', ' '] ++ JVal.dumpChars v
  | (k, v) :: p :: fs =>
    dumpStrChars k ++ [':', ' '] ++ JVal.dumpChars v ++ [',', ' '] ++
      JVal.dumpObjChars (p :: fs)

end

/-- Serialize a value to a string (`json.dumps`). -/
def dumps (v : JVal) : String :=
  String.mk v.dumpChars

example : dumps (.jobj [("type", .jstr "online_count"), ("count", .jnum 2)])
    = "\x7b\"type\": \"online_count\", \"count\": 2\x7d" := by decide
example : dumps (.jarr [.jnum (-3), .jnull]) = "[-3, null]" := by decide

/-! ### Identity extraction (app.py lines 113-118 and 159-165) -/

/-- Lookup in a `parse_qs` result (`parsed.get('user', ...)`). -/
def qsGet (parsed : List (String × List String)) (key : String) :
    Option (List String) :=
  (parsed.find? (fun p => p.1 == key)).map (fun p => p.2)

/-- Python `dict.get(key)` on a decoded JSON object.  `json.loads` builds
the dict left to right, so a duplicated key keeps its last value: look up
the last matching member. -/
def jget (fs : List (String × JVal)) (key : String) : Option JVal :=
  (fs.reverse.find? (fun p => p.1 == key)).map (fun p => p.2)

/-- Identity extraction shared by `send_message` (lines 113-118) and
`websocket` (lines 159-165):

    parsed = parse_qs(init_data)
    user_data = json.loads(parsed.get('user', ['\x7b\x7d'])[0])
    user_id = user_data.get('id')

`.error ()` models the `except:` branch being taken (a `json.loads`
failure, or `.get` raising `AttributeError` because the decoded `user`
payload is not a dict); `.ok u` models reaching `user_id = u`, where
`u = none` models Python `None` (the `user` field absent — so the default
`'\x7b\x7d'` decodes to an empty dict — or the `id` key absent). -/
instance : DecidableEq (Except Unit (Option JVal)) := fun a b =>
  match a, b with
  | .ok x, .ok y =>
    if h : x = y then isTrue (by rw [h]) else isFalse (by intro hh; cases hh; exact h rfl)
  | .error x, .error y => isTrue (by cases x; cases y; rfl)
  | .ok _, .error _ => isFalse nofun
  | .error _, .ok _ => isFalse nofun

def extract_user_id (init_data : String) : Except Unit (Option JVal) :=
  let parsed := parse_qs init_data
  let userStr :=
    match qsGet parsed "user" with
    | some (v :: _) => v
    | some [] => "\x7b\x7d"
    | none => "\x7b\x7d"
  match json_loads userStr with
  | none => .error ()
  | some (.jobj fs) => .ok (jget fs "id")
  | some _ => .error ()

example : extract_user_id "user=\x7b\"id\":42\x7d" = .ok (some (.jnum 42)) := by decide
example : extract_user_id "user=%7B%22id%22%3A42%7D" = .ok (some (.jnum 42)) := by decide
example : extract_user_id "auth_date=1" = .ok none := by decide
example : extract_user_id "" = .ok none := by decide
example : extract_user_id "user=notjson" = .error () := by decide
example : extract_user_id "user=[1,2]" = .error () := by decide
example : extract_user_id "user=\x7b\"name\":\"bob\"\x7d" = .ok none := by decide
example : extract_user_id "user=\x7b\"id\":\"abc\"\x7d" = .ok (some (.jstr "abc")) := by decide
example : extract_user_id "user=\x7b\"id\":0\x7d" = .ok (some (.jnum 0)) := by decide

/-! ### Connection registry (app.py line 32) -/

/-- A live websocket handle.  `fails` models whether `ws.send` raises for
this connection during delivery (the `except:` at line 225); `cid`
distinguishes handles. -/
structure Conn where
  cid : Nat
  fails : Bool
  deriving DecidableEq, Repr

/-- The `active_connections` dict: user id (any decoded JSON value the
code stores, integers in the intended flow) to websocket handle, in
insertion order as a Python dict. -/
abbrev Registry := List (JVal × Conn)

/-- Python `u in active_connections`. -/
def containsKey (reg : Registry) (u : JVal) : Bool :=
  reg.any (fun p => p.1 == u)

/-- Number of entries stored under key `u` (1 or 0 for a real dict). -/
def countKey (reg : Registry) (u : JVal) : Nat :=
  (reg.filter (fun p => p.1 == u)).length

/-- Dict assignment `active_connections[user_id] = ws` (app.py line 171):
overwrite in place when the key exists, else append. -/
def register (reg : Registry) (u : JVal) (c : Conn) : Registry :=
  if containsKey reg u then
    reg.map (fun p => if p.1 == u then (p.1, c) else p)
  else reg ++ [(u, c)]

/-- Dict removal `active_connections.pop(user_id, None)` (line 229) and
the guarded `del active_connections[user_id]` (lines 198-199): remove the
entry for `u` when present, no-op otherwise. -/
def pop (reg : Registry) (u : JVal) : Registry :=
  reg.filter (fun p => !(p.1 == u))

/-- The teardown unregistration as written at lines 197-199:
`if user_id and user_id in active_connections: del ...`. -/
def unregister_teardown (reg : Registry) (u : JVal) : Registry :=
  if u.truthy && containsKey reg u then pop reg u else reg

/-! ### Broadcast fanout (app.py lines 215-229) -/

/-- The skip condition `if exclude_user and user_id == exclude_user:`
(line 220).  Note the Python truthiness guard: a falsy `exclude_user`
(such as `0`) disables the exclusion entirely. -/
def excludedB (exclude : Option JVal) (u : JVal) : Bool :=
  match exclude with
  | some e => e.truthy && (u == e)
  | none => false

/-- Result of one `broadcast_message` invocation: the `(user_id,
serialized string)` pairs successfully sent, the string produced by each
`json.dumps` call (line 224, one call per delivery attempt), and the
registry after the failed connections are popped (lines 228-229). -/
structure BroadcastResult where
  delivered : List (JVal × String)
  serializations : List String
  registry : Registry
  deriving DecidableEq

/-- Model of `broadcast_message(message, exclude_user)` (lines 215-229).
The loop iterates over a snapshot `list(active_connections.items())`,
skips excluded users, serializes and sends to each remaining connection —
collecting those whose send raised — and afterwards pops every failed
connection from the registry (two-phase iterate-then-mutate). -/
def broadcast_message (reg : Registry) (message : JVal)
    (exclude_user : Option JVal) : BroadcastResult :=
  let attempts := reg.filter (fun p => !(excludedB exclude_user p.1))
  { delivered :=
      (attempts.filter (fun p => !p.2.fails)).map (fun p => (p.1, dumps message))
    serializations := attempts.map (fun _ => dumps message)
    registry :=
      ((attempts.filter (fun p => p.2.fails)).map (fun p => p.1)).foldl pop reg }

/-! ### Send-message handler (app.py lines 106-142) -/

/-- One persistence call `api_request('POST', 'send_message', ...)`
(lines 127-131), with the payload fields the handler passes. -/
structure StoreCall where
  user_id : Option JVal
  text : String
  reply_to_id : Option JVal
  deriving DecidableEq

/-- HTTP response of the send-message handler. -/
inductive SendResult where
  | authError
  | validationError
  | upstreamError
  | success (message : JVal)
  deriving DecidableEq

/-- Observable outcome of one `send_message` request: the response, the
persistence calls made, the `(event, exclude_user)` broadcasts emitted,
and the registry after the request (a broadcast may drop failed
connections). -/
structure SendOutcome where
  response : SendResult
  storeCalls : List StoreCall
  broadcasts : List (JVal × Option JVal)
  registry : Registry
  deriving DecidableEq

/-- Model of the `send_message` route (lines 106-142).  `store` is the
external MessageStore oracle: `none` models `api_request` returning
`None` (line 133).  The request body fields `init_data` and `text` are
the values of `data.get('init_data', '')` and `data.get('text', '')`, and
`reply_to_id` that of `data.get('reply_to_id')`.

    - extraction failure → 401 `authError`;
    - `text` empty after `.strip()` or longer than 1000 → 400
      `validationError`, no store call;
    - store returns `None` → 500 `upstreamError`;
    - else broadcast the `new_message` event to all (no exclusion) and
      return the persisted message. -/
def send_message (store : StoreCall → Option JVal) (reg : Registry)
    (init_data text : String) (reply_to_id : Option JVal) : SendOutcome :=
  match extract_user_id init_data with
  | .error _ => ⟨.authError, [], [], reg⟩
  | .ok user_id =>
    let t := pyStrip text
    if t.length = 0 || t.length > 1000 then ⟨.validationError, [], [], reg⟩
    else
      let call : StoreCall := ⟨user_id, t, reply_to_id⟩
      match store call with
      | none => ⟨.upstreamError, [call], [], reg⟩
      | some message =>
        let ev : JVal := .jobj [("type", .jstr "new_message"), ("message", message)]
        let br := broadcast_message reg ev none
        ⟨.success message, [call], [(ev, none)], br.registry⟩

/-! ### Websocket connection handler, registration phase (lines 151-192) -/

/-- How the connection phase of the `websocket` handler ends. -/
inductive WsStatus where
  | closedInvalid
  | closedNoUser
  | active (user_id : JVal)
  deriving DecidableEq

/-- Observable outcome of the `websocket` handler up to entering its
receive loop: final status, registry, the profile fetches issued
(`api_request('GET', 'user/profile', ...)`, line 175) and the `(event,
exclude_user)` broadcasts emitted. -/
structure WsOutcome where
  status : WsStatus
  registry : Registry
  profileFetches : List JVal
  broadcasts : List (JVal × Option JVal)
  deriving DecidableEq

/-- Option-getD as `json.dumps` sees a possibly-`None` nickname: Python
`None` serializes as JSON `null`. -/
def optJ (o : Option JVal) : JVal :=
  o.getD .jnull

/-- Model of the `websocket` route from open to entering the receive loop
(lines 151-192).  `profiles` is the profile-fetch oracle: `none` models
`api_request` returning `None`, `some fs` a decoded profile dict.

    - extraction failure → `ws.close(reason='Invalid init_data')`, no
      registry mutation, no fetch, no broadcast;
    - falsy `user_id` (`None`, `0`, …) → `ws.close(reason='No user_id')`,
      likewise without side effects;
    - else register (dict assignment), fetch the profile, broadcast
      `user_joined` excluding the new user when the profile is truthy,
      then broadcast `online_count` with the current registry size to
      everyone. -/
def websocket (profiles : JVal → Option (List (String × JVal)))
    (reg : Registry) (init_data : String) (ws : Conn) : WsOutcome :=
  match extract_user_id init_data with
  | .error _ => ⟨.closedInvalid, reg, [], []⟩
  | .ok user_id =>
    match user_id with
    | none => ⟨.closedNoUser, reg, [], []⟩
    | some v =>
      if !v.truthy then ⟨.closedNoUser, reg, [], []⟩
      else
        let reg1 := register reg v ws
        let prof := profiles v
        let joinEv : Option JVal :=
          match prof with
          | some fs =>
            if fs.isEmpty then none
            else some (.jobj [("type", .jstr "user_joined"), ("user_id", v),
                              ("nickname", optJ (jget fs "nickname"))])
          | none => none
        let (reg2, joins) :=
          match joinEv with
          | some ev => ((broadcast_message reg1 ev (some v)).registry, [(ev, some v)])
          | none => (reg1, [])
        let countEv : JVal :=
          .jobj [("type", .jstr "online_count"), ("count", .jnum reg2.length)]
        let br := broadcast_message reg2 countEv none
        ⟨.active v, br.registry, [v], joins ++ [(countEv, none)]⟩

/-! ### List-messages handler (app.py lines 89-104) -/

/-- Python `int(s)` on a string: surrounding whitespace allowed, one
optional sign, then one or more decimal digits (`_` digit grouping not
modelled); `none` models the raised `ValueError`. -/
def pyInt (s : String) : Option Int :=
  let cs := pyStripChars s.toList
  let core :=
    match cs with
    | '+' :: rest => some (false, rest)
    | '-' :: rest => some (true, rest)
    | _ => some (false, cs)
  match core with
  | some (neg, ds) =>
    if ds.isEmpty || !(ds.all isDigitChar) then none
    else
      let n : Int := Int.ofNat (digitsVal ds)
      some (if neg then -n else n)
  | none => none

example : pyInt "30" = some 30 := by decide
example : pyInt " -7 " = some (-7) := by decide
example : pyInt "abc" = none := by decide
example : pyInt "" = none := by decide
example : pyInt "1.5" = none := by decide

/-- The query parameters the handler forwards to
`api_request('GET', 'messages', params)` (line 99). -/
structure ListCall where
  limit : Int
  before_id : Option Int
  deriving DecidableEq

/-- The constant fallback response (line 104). -/
def emptyMessages : JVal :=
  .jobj [("messages", .jarr []), ("has_more", .jbool false)]

/-- Normal-path response assembly (lines 101-104): the store result when
truthy, else the empty-list response (`if result:` is a truthiness test). -/
def messagesResponse (result : Option JVal) : JVal :=
  match result with
  | some v => if v.truthy then v else emptyMessages
  | none => emptyMessages

/-- Model of the `get_messages` route (lines 89-104).  `limitArg` and
`beforeArg` are `request.args.get('limit')` / `request.args.get('before_id')`
(`none` when the query parameter is absent; the source defaults `limit`
to `30`).  `.error ()` models an uncaught `ValueError` escaping the
handler from `int(...)` (lines 92 and 97): the route has no handler for
it, so no JSON response is produced. -/
def get_messages (store : ListCall → Option JVal)
    (limitArg beforeArg : Option String) : Except Unit JVal :=
  let limit? :=
    match limitArg with
    | none => some (30 : Int)
    | some s => pyInt s
  match limit? with
  | none => .error ()
  | some limit =>
    match beforeArg with
    | some s =>
      if s.length ≠ 0 then
        match pyInt s with
        | none => .error ()
        | some b => .ok (messagesResponse (store ⟨limit, some b⟩))
      else .ok (messagesResponse (store ⟨limit, none⟩))
    | none => .ok (messagesResponse (store ⟨limit, none⟩))

instance : DecidableEq (Except Unit JVal) := fun a b =>
  match a, b with
  | .ok x, .ok y =>
    if h : x = y then isTrue (by rw [h]) else isFalse (by intro hh; cases hh; exact h rfl)
  | .error x, .error y => isTrue (by cases x; cases y; rfl)
  | .ok _, .error _ => isFalse nofun
  | .error _, .ok _ => isFalse nofun

/-! ### Concrete fixtures used by witnesses and counterexamples -/

/-- Store oracle that persists every message as the object the Yandex API
would return. -/
def storeOk : StoreCall → Option JVal := fun _ => some (.jstr "m")

/-- Messages-list oracle modelling an unreachable store. -/
def storeNone : ListCall → Option JVal := fun _ => none

/-- Profile oracle modelling an unreachable store. -/
def profNone : JVal → Option (List (String × JVal)) := fun _ => none

/-- A healthy connection handle. -/
def connA : Conn := ⟨1, false⟩

/-- A second healthy connection handle. -/
def connB : Conn := ⟨2, false⟩

/-- A connection whose send raises. -/
def connBad : Conn := ⟨3, true⟩

/-- A sample event payload. -/
def pingEv : JVal := .jobj [("type", .jstr "ping")]

/-- A two-user registry with healthy connections. -/
def reg2ok : Registry := [(.jnum 1, connA), (.jnum 2, connB)]

/-- A registry where user 1's connection fails and user 2's works. -/
def regMixed : Registry := [(.jnum 1, connBad), (.jnum 2, connB)]

/-- A well-formed identity token for user 42. -/
def tok42 : String := "user=\x7b\"id\":42\x7d"

/-- A well-formed identity token whose id is the falsy integer 0. -/
def tok0 : String := "user=\x7b\"id\":0\x7d"

/-- A token whose user field is not valid JSON. -/
def tokBad : String := "user=notjson"

/-- A token with no user field at all. -/
def tokNoUser : String := "auth_date=1"

/-! ## Registry lemmas -/

theorem containsKey_eq_false_iff (reg : Registry) (u : JVal) :
    containsKey reg u = false ↔ ∀ p ∈ reg, p.1 ≠ u := by
  simp [containsKey]

theorem pop_of_not_contains (reg : Registry) (u : JVal)
    (h : containsKey reg u = false) : pop reg u = reg := by
  rw [containsKey_eq_false_iff] at h
  apply List.filter_eq_self.mpr
  intro p hp
  simpa using h p hp

theorem containsKey_pop_self (reg : Registry) (u : JVal) :
    containsKey (pop reg u) u = false := by
  rw [containsKey_eq_false_iff]
  intro p hp
  rw [pop, List.mem_filter] at hp
  simpa using hp.2

theorem containsKey_pop_false (reg : Registry) (u v : JVal)
    (h : containsKey reg u = false) : containsKey (pop reg v) u = false := by
  rw [containsKey_eq_false_iff] at h ⊢
  intro p hp
  exact h p (List.mem_filter.mp hp).1

theorem containsKey_foldl_pop_false (ds : List JVal) (reg : Registry) (u : JVal)
    (h : containsKey reg u = false) : containsKey (ds.foldl pop reg) u = false := by
  induction ds generalizing reg with
  | nil => exact h
  | cons d ds ih => exact ih (pop reg d) (containsKey_pop_false reg u d h)

theorem containsKey_foldl_pop_mem (ds : List JVal) (reg : Registry) (u : JVal)
    (h : u ∈ ds) : containsKey (ds.foldl pop reg) u = false := by
  induction ds generalizing reg with
  | nil => cases h
  | cons d ds ih =>
    cases h with
    | head =>
      exact containsKey_foldl_pop_false ds (pop reg u) u (containsKey_pop_self reg u)
    | tail _ h2 => exact ih (pop reg d) h2

theorem countKey_eq_zero_of_not_contains (reg : Registry) (u : JVal)
    (h : containsKey reg u = false) : countKey reg u = 0 := by
  rw [containsKey_eq_false_iff] at h
  rw [countKey, List.length_eq_zero, List.filter_eq_nil_iff]
  intro p hp
  simpa using h p hp

theorem one_le_countKey_of_contains (reg : Registry) (u : JVal)
    (h : containsKey reg u = true) : 1 ≤ countKey reg u := by
  rw [containsKey, List.any_eq_true] at h
  obtain ⟨p, hp, hq⟩ := h
  exact List.length_pos_of_mem (List.mem_filter.mpr ⟨hp, hq⟩)

theorem contains_of_one_le_countKey (reg : Registry) (u : JVal)
    (h : 1 ≤ countKey reg u) : containsKey reg u = true := by
  by_contra hc
  have h0 := countKey_eq_zero_of_not_contains reg u (by
    cases hcc : containsKey reg u with
    | false => rfl
    | true => exact absurd hcc hc)
  omega

theorem countKey_map_keyfix (reg : Registry) (f : JVal × Conn → JVal × Conn)
    (hf : ∀ p, (f p).1 = p.1) (v : JVal) :
    countKey (reg.map f) v = countKey reg v := by
  rw [countKey, countKey, List.filter_map, List.length_map]
  congr 1
  apply List.filter_congr
  intro p _
  simp [Function.comp, hf p]

/-! ## Claim theorems -/

/-- C8: unregistering a UserID with no entry is a no-op: `pop` (the
`active_connections.pop(user_id, None)` of line 229) raises no error and
returns the identical registry with unchanged size, and the guarded
teardown `del` of lines 197-199 likewise leaves the registry untouched. -/
theorem C8_unregister_absent_noop (reg : Registry) (u : JVal)
    (h : containsKey reg u = false) :
    pop reg u = reg ∧ (pop reg u).length = reg.length
    ∧ unregister_teardown reg u = reg := by
  have hp := pop_of_not_contains reg u h
  refine ⟨hp, by rw [hp], ?_⟩
  rw [unregister_teardown, h]
  simp

/-- C8 witness: popping absent user 2 from a one-user registry returns it
unchanged. -/
theorem C8_witness :
    containsKey [((JVal.jnum 1), connA)] (JVal.jnum 2) = false
    ∧ pop [((JVal.jnum 1), connA)] (JVal.jnum 2) = [((JVal.jnum 1), connA)]
    ∧ unregister_teardown [((JVal.jnum 1), connA)] (JVal.jnum 2)
        = [((JVal.jnum 1), connA)] :=
  ⟨by decide,
   (C8_unregister_absent_noop [((JVal.jnum 1), connA)] (JVal.jnum 2) (by decide)).1,
   (C8_unregister_absent_noop [((JVal.jnum 1), connA)] (JVal.jnum 2) (by decide)).2.2⟩

/-- C3: a delivery failure during broadcast is isolated: the broadcast
(total by construction — the per-connection `except:` of line 225 means no
exception escapes the loop) still delivers the serialized event to every
non-excluded connection whose send works, and every non-excluded
connection whose send fails has its entry absent from the registry when
the invocation returns (two-phase iterate-then-mutate, lines 226-229). -/
theorem C3_broadcast_failure_isolated (reg : Registry) (msg : JVal)
    (ex : Option JVal) (uid : JVal) (c : Conn)
    (hmem : (uid, c) ∈ reg) (hexc : excludedB ex uid = false) :
    (c.fails = true →
      containsKey (broadcast_message reg msg ex).registry uid = false)
    ∧ (c.fails = false →
      (uid, dumps msg) ∈ (broadcast_message reg msg ex).delivered) := by
  have hatt : (uid, c) ∈ reg.filter (fun p => !(excludedB ex p.1)) :=
    List.mem_filter.mpr ⟨hmem, by simp [hexc]⟩
  constructor
  · intro hf
    apply containsKey_foldl_pop_mem
    apply List.mem_map.mpr
    refine ⟨(uid, c), List.mem_filter.mpr ⟨hatt, ?_⟩, rfl⟩
    simp [hf]
  · intro hf
    apply List.mem_map.mpr
    refine ⟨(uid, c), List.mem_filter.mpr ⟨hatt, ?_⟩, rfl⟩
    simp [hf]

/-- C3 witness: in a registry where user 1's send fails and user 2's
works, broadcasting removes user 1 and delivers to user 2. -/
theorem C3_witness :
    containsKey (broadcast_message regMixed pingEv none).registry (JVal.jnum 1) = false
    ∧ (JVal.jnum 2, dumps pingEv) ∈ (broadcast_message regMixed pingEv none).delivered :=
  ⟨(C3_broadcast_failure_isolated regMixed pingEv none (JVal.jnum 1) connBad
      (by decide) (by decide)).1 (by decide),
   (C3_broadcast_failure_isolated regMixed pingEv none (JVal.jnum 2) connB
      (by decide) (by decide)).2 (by decide)⟩

/-- C2 counterexample: the claim promises, for every registry state, that
Broadcast(event, exclude=U) delivers to no connection whose UserID is U.
With registry `[(0, connA)]` and exclude = 0 the event IS delivered to
UserID 0: line 220 reads `if exclude_user and user_id == exclude_user:`,
and the falsy `exclude_user = 0` disables the exclusion. -/
theorem C2_counterexample :
    (broadcast_message [((JVal.jnum 0), connA)] pingEv
        (some (JVal.jnum 0))).delivered.map Prod.fst = [JVal.jnum 0] := by decide

/-- C2 (amended): when every registered connection accepts delivery,
Broadcast(event, exclude=U) with a truthy U delivers the serialized event
to exactly the registered connections whose UserID is not U, and
Broadcast with exclude unset delivers to every registered connection
(including the sender's); for a falsy U (such as 0, unreachable for a
registered id) the exclusion is disabled. -/
theorem C2_broadcast_delivery (reg : Registry) (msg : JVal) (e : JVal)
    (hok : ∀ p ∈ reg, p.2.fails = false) (he : e.truthy = true) :
    (broadcast_message reg msg (some e)).delivered
      = (reg.filter (fun p => !(p.1 == e))).map (fun p => (p.1, dumps msg))
    ∧ (broadcast_message reg msg none).delivered
      = reg.map (fun p => (p.1, dumps msg)) := by
  constructor
  · show ((reg.filter (fun p => !(excludedB (some e) p.1))).filter
        (fun p => !p.2.fails)).map (fun p => (p.1, dumps msg)) = _
    have h1 : reg.filter (fun p => !(excludedB (some e) p.1))
        = reg.filter (fun p => !(p.1 == e)) := by
      apply List.filter_congr
      intro p _
      simp [excludedB, he]
    rw [h1]
    congr 1
    apply List.filter_eq_self.mpr
    intro p hp
    have := hok p (List.mem_filter.mp hp).1
    simp [this]
  · show ((reg.filter (fun p => !(excludedB none p.1))).filter
        (fun p => !p.2.fails)).map (fun p => (p.1, dumps msg)) = _
    have h1 : reg.filter (fun p => !(excludedB none p.1)) = reg := by
      apply List.filter_eq_self.mpr
      intro p _
      simp [excludedB]
    rw [h1]
    congr 1
    apply List.filter_eq_self.mpr
    intro p hp
    have := hok p hp
    simp [this]

/-- C2 witness: over the two-user healthy registry, excluding user 2
delivers only to user 1, and an unset exclusion delivers to both. -/
theorem C2_witness :
    (broadcast_message reg2ok pingEv (some (JVal.jnum 2))).delivered
      = [((JVal.jnum 1), dumps pingEv)]
    ∧ (broadcast_message reg2ok pingEv none).delivered
      = [((JVal.jnum 1), dumps pingEv), ((JVal.jnum 2), dumps pingEv)] :=
  ⟨((C2_broadcast_delivery reg2ok pingEv (JVal.jnum 2)
      (by decide) (by decide)).1).trans (by decide),
   ((C2_broadcast_delivery reg2ok pingEv (JVal.jnum 2)
      (by decide) (by decide)).2).trans (by decide)⟩

/-- C7 counterexample: the claim says Broadcast serializes the event
exactly once per invocation; over a two-connection registry one
invocation performs two `json.dumps` calls (line 224 sits inside the
per-connection loop), not one. -/
theorem C7_counterexample :
    (broadcast_message reg2ok pingEv none).serializations.length = 2
    ∧ (broadcast_message reg2ok pingEv none).delivered.length = 2 := by decide

/-- C7 (amended): Broadcast serializes the event once per delivery
attempt — `json.dumps` runs inside the per-connection loop, so the number
of serializations equals the number of non-excluded connections — every
serialization yields the identical string `dumps msg`, and every
successful delivery in the invocation sends that same serialized
string. -/
theorem C7_serialize_per_attempt (reg : Registry) (msg : JVal)
    (ex : Option JVal) :
    (broadcast_message reg msg ex).serializations
      = List.replicate (reg.filter (fun p => !(excludedB ex p.1))).length (dumps msg)
    ∧ (broadcast_message reg msg ex).delivered.map Prod.snd
      = List.replicate (broadcast_message reg msg ex).delivered.length (dumps msg) := by
  constructor
  · show (reg.filter (fun p => !(excludedB ex p.1))).map (fun _ => dumps msg) = _
    rw [List.map_const']
  · have hd : (broadcast_message reg msg ex).delivered
        = ((reg.filter (fun p => !(excludedB ex p.1))).filter
            (fun p => !p.2.fails)).map (fun p => (p.1, dumps msg)) := rfl
    rw [hd, List.map_map, List.length_map, ← List.map_const']
    rfl

theorem countKey_append (r1 r2 : Registry) (v : JVal) :
    countKey (r1 ++ r2) v = countKey r1 v + countKey r2 v := by
  rw [countKey, countKey, countKey, List.filter_append, List.length_append]

theorem countKey_register (reg : Registry) (u : JVal) (c : Conn) (v : JVal) :
    countKey (register reg u c) v
      = if containsKey reg u then countKey reg v
        else countKey reg v + (if u == v then 1 else 0) := by
  rw [register]
  by_cases hc : containsKey reg u
  · rw [if_pos hc, if_pos hc]
    exact countKey_map_keyfix reg _ (by
      intro p
      by_cases hp : p.1 == u
      · simp [hp]
      · simp [hp]) v
  · rw [if_neg hc, if_neg hc, countKey_append]
    congr 1
    by_cases hv : u == v
    · rw [if_pos hv, countKey]
      simp [hv]
    · rw [if_neg hv, countKey]
      simp [hv]

/-- C4: dict assignment `active_connections[user_id] = ws` (line 171)
inserts or overwrites: it preserves the at-most-one-entry-per-UserID
invariant, leaves exactly one entry for the registered UserID, registering
the same UserID twice in succession leaves exactly one entry for it,
holding the later connection, the operation is total (never errors), and
the registry size changes by 0 or 1. -/
theorem C4_register_overwrite (reg : Registry) (u : JVal) (c1 c2 : Conn)
    (hwf : ∀ v, countKey reg v ≤ 1) :
    (∀ v, countKey (register reg u c1) v ≤ 1)
    ∧ countKey (register reg u c1) u = 1
    ∧ (register (register reg u c1) u c2).filter (fun p => p.1 == u) = [(u, c2)]
    ∧ ((register reg u c1).length = reg.length
       ∨ (register reg u c1).length = reg.length + 1) := by
  have hone : ∀ c : Conn, countKey (register reg u c) u = 1 := by
    intro c
    rw [countKey_register]
    by_cases hc : containsKey reg u
    · rw [if_pos hc]
      exact Nat.le_antisymm (hwf u) (one_le_countKey_of_contains reg u hc)
    · rw [if_neg hc]
      rw [countKey_eq_zero_of_not_contains reg u (by
        cases hcc : containsKey reg u with
        | false => rfl
        | true => exact absurd hcc hc)]
      simp
  refine ⟨?_, hone c1, ?_, ?_⟩
  · intro v
    rw [countKey_register]
    by_cases hc : containsKey reg u
    · rw [if_pos hc]
      exact hwf v
    · rw [if_neg hc]
      by_cases hv : u == v
      · have huv : u = v := by simpa using hv
        rw [if_pos hv, ← huv]
        rw [countKey_eq_zero_of_not_contains reg u (by
          cases hcc : containsKey reg u with
          | false => rfl
          | true => exact absurd hcc hc)]
      · rw [if_neg hv]
        simpa using hwf v
  · have h1 : countKey (register reg u c1) u = 1 := hone c1
    have hc1 : containsKey (register reg u c1) u = true :=
      contains_of_one_le_countKey _ u (by omega)
    rw [register, if_pos (by rw [hc1])]
    rw [List.filter_map]
    have hcomp : (register reg u c1).filter
        ((fun p : JVal × Conn => p.1 == u) ∘
          (fun p : JVal × Conn => if p.1 == u then (p.1, c2) else p))
        = (register reg u c1).filter (fun p => p.1 == u) := by
      apply List.filter_congr
      intro p _
      by_cases hp : p.1 == u
      · have hp2 : p.1 = u := by simpa using hp
        simp [hp, hp2]
      · have hp2 : ¬p.1 = u := by simpa using hp
        simp [hp, hp2]
    rw [hcomp]
    obtain ⟨q, hq⟩ := List.length_eq_one.mp h1
    rw [hq]
    have hqmem : q ∈ (register reg u c1).filter (fun p => p.1 == u) := by
      rw [hq]; exact List.mem_singleton_self q
    have hqu : q.1 = u := by
      have := (List.mem_filter.mp hqmem).2
      simpa using this
    rw [List.map_singleton]
    have hfq : ((if q.1 == u then (q.1, c2) else q) : JVal × Conn) = (u, c2) := by
      rw [if_pos (by simp [hqu]), hqu]
    rw [hfq]
  · rw [register]
    by_cases hc : containsKey reg u
    · rw [if_pos hc, List.length_map]
      exact Or.inl rfl
    · rw [if_neg hc, List.length_append]
      exact Or.inr rfl

/-- C4 witness: registering user 7 in the empty registry gives one entry;
registering it again keeps a single entry holding the later connection;
size changed by 0 or 1. -/
theorem C4_witness :
    countKey (register [] (JVal.jnum 7) connA) (JVal.jnum 7) = 1
    ∧ (register (register [] (JVal.jnum 7) connA) (JVal.jnum 7) connB).filter
        (fun p => p.1 == JVal.jnum 7) = [((JVal.jnum 7), connB)]
    ∧ ((register [] (JVal.jnum 7) connA).length = ([] : Registry).length
       ∨ (register [] (JVal.jnum 7) connA).length = ([] : Registry).length + 1) :=
  ⟨(C4_register_overwrite [] (JVal.jnum 7) connA connB
      (fun v => by simp [countKey])).2.1,
   (C4_register_overwrite [] (JVal.jnum 7) connA connB
      (fun v => by simp [countKey])).2.2.1,
   (C4_register_overwrite [] (JVal.jnum 7) connA connB
      (fun v => by simp [countKey])).2.2.2⟩

/-- C1 counterexample: the claim promises that a token whose `user` field
is absent is rejected with the 401 response and causes no MessageStore
call and no broadcast.  In the code, `parsed.get('user', ...)` falls back
to an empty dict, so extraction succeeds with `user_id = None` and a
send_message request with such a token and valid text is persisted (with
`user_id: None`) and broadcast. -/
theorem C1_counterexample :
    (send_message storeOk [] tokNoUser "hi" none).response
      = SendResult.success (.jstr "m")
    ∧ (send_message storeOk [] tokNoUser "hi" none).storeCalls
      = [⟨none, "hi", none⟩]
    ∧ (send_message storeOk [] tokNoUser "hi" none).broadcasts ≠ [] := by decide

/-- C1 (amended): identity extraction fails with AuthError exactly when
the `user` payload fails to parse as JSON or parses to a non-object; in
every such case the send_message request is rejected with the
401-equivalent response with no store call, no broadcast and an unchanged
registry, and the websocket connection closes (reason 'Invalid
init_data') with no registry mutation, no profile fetch and no broadcast.
A token whose `user` field is absent or whose `id` key is missing instead
yields successful extraction with `user_id = None` (send_message then
proceeds to validation and persistence; the websocket closes with 'No
user_id'), and a non-integer `id` is passed through without any type
check. -/
theorem C1_auth_error_no_mutation (init text : String) (r : Option JVal)
    (store : StoreCall → Option JVal)
    (profiles : JVal → Option (List (String × JVal)))
    (reg : Registry) (ws : Conn)
    (h : extract_user_id init = .error ()) :
    send_message store reg init text r = ⟨.authError, [], [], reg⟩
    ∧ websocket profiles reg init ws = ⟨.closedInvalid, reg, [], []⟩ := by
  constructor
  · simp [send_message, h]
  · simp [websocket, h]

/-- C1 witness: a token whose user payload is not JSON is refused by both
handlers without side effects. -/
theorem C1_witness :
    extract_user_id tokBad = .error ()
    ∧ send_message storeOk [] tokBad "hi" none
        = ⟨.authError, [], [], []⟩
    ∧ websocket profNone [] tokBad connA = ⟨.closedInvalid, [], [], []⟩ :=
  ⟨by decide,
   (C1_auth_error_no_mutation tokBad "hi" none storeOk profNone [] connA (by decide)).1,
   (C1_auth_error_no_mutation tokBad "hi" none storeOk profNone [] connA (by decide)).2⟩

/-- C5: when identity extraction succeeds, a send_message request whose
text is empty after trimming or longer than 1000 characters fails with
the 400-equivalent ValidationError, makes no MessageStore call, emits no
broadcast and leaves the registry unchanged; a text of trimmed length
between 1 and 1000 passes the validation (the response is never
ValidationError). -/
theorem C5_send_message_validation (store : StoreCall → Option JVal)
    (reg : Registry) (init text : String) (r : Option JVal) (u : Option JVal)
    (hx : extract_user_id init = .ok u) :
    ((pyStrip text).length = 0 ∨ 1000 < (pyStrip text).length →
      send_message store reg init text r = ⟨.validationError, [], [], reg⟩)
    ∧ (1 ≤ (pyStrip text).length → (pyStrip text).length ≤ 1000 →
      (send_message store reg init text r).response ≠ .validationError) := by
  constructor
  · intro hbad
    rcases hbad with hb | hb
    · simp [send_message, hx, hb]
    · simp [send_message, hx, hb]
  · intro h1 h2
    have hc0 : ¬(pyStrip text).length = 0 := by omega
    have hc1 : ¬(pyStrip text).length > 1000 := by omega
    simp [send_message, hx, hc0, hc1]
    cases hs : store ⟨u, pyStrip text, r⟩ with
    | none => simp [hs]
    | some m => simp [hs]

/-- C5 witness: with a valid token for user 42, the empty text is
rejected with no store call and no broadcast, while "hello" passes
validation. -/
theorem C5_witness :
    extract_user_id tok42 = .ok (some (.jnum 42))
    ∧ send_message storeOk [] tok42 "" none = ⟨.validationError, [], [], []⟩
    ∧ (send_message storeOk [] tok42 "hello" none).response ≠ .validationError :=
  ⟨by decide,
   (C5_send_message_validation storeOk [] tok42 "" none (some (.jnum 42))
      (by decide)).1 (Or.inl (by decide)),
   (C5_send_message_validation storeOk [] tok42 "hello" none (some (.jnum 42))
      (by decide)).2 (by decide) (by decide)⟩

/-- C10: a well-formed token whose `user` payload carries a falsy `id`
(0, or any other falsy value) makes the websocket handler close the
connection with reason 'No user_id' and perform no registry mutation, no
profile fetch and no broadcast, even though extraction itself succeeded
with that id. -/
theorem C10_websocket_falsy_id (profiles : JVal → Option (List (String × JVal)))
    (reg : Registry) (init : String) (ws : Conn) (v : JVal)
    (hx : extract_user_id init = .ok (some v)) (hf : v.truthy = false) :
    websocket profiles reg init ws = ⟨.closedNoUser, reg, [], []⟩ := by
  simp [websocket, hx, hf]

/-- C10 witness: the token for id 0 extracts successfully and the
handler closes with no side effects. -/
theorem C10_witness :
    extract_user_id tok0 = .ok (some (.jnum 0))
    ∧ websocket profNone [] tok0 connA = ⟨.closedNoUser, [], [], []⟩ :=
  ⟨by decide,
   C10_websocket_falsy_id profNone [] tok0 connA (.jnum 0) (by decide) (by decide)⟩

/-- C9: the list-messages handler is not total over its advertised input
shapes: a request whose limit (or before_id) query parameter is a
non-integer string makes the `int(...)` conversion raise an uncaught
ValueError instead of producing the documented response, while the
parameterless request returns the documented empty-list body. -/
theorem C9_get_messages_not_total :
    get_messages storeNone (some "abc") none = .error ()
    ∧ get_messages storeNone none (some "xyz") = .error ()
    ∧ get_messages storeNone none none = .ok emptyMessages := by decide
